import Mathlib

/-!
A verification development for the XPath expression engine of the
`elementpath` package.  The engine's AST-token value-coercion semantics
(effective boolean value, string/data value derivation, schema type
binding and narrowing, the error taxonomy, the collation scope and the
parser source-reconstruction invariant) are modelled here as executable
Lean definitions, following the package's design specification and its
unit tests, and the specified properties are proved about the model.
-/

namespace ElementPath

/-! ## Atomic values and schema types -/

/-- A floating value, modelled by its decimal scientific representation:
either one of the three special values or a finite value
`± mantissa · 10 ^ exp10` (the mantissa carries the significant decimal
digits, without trailing zeros in the canonical form). -/
inductive FloatV where
  | nan
  | inf
  | negInf
  | finite (neg : Bool) (mantissa : Nat) (exp10 : Int)
deriving DecidableEq, Repr

/-- A decimal value `± unscaled · 10 ^ (- scale)`, mirroring an exact
decimal number with `scale` fractional digits. -/
structure DecimalV where
  neg : Bool
  unscaled : Nat
  scale : Nat
deriving DecidableEq, Repr

/-- An atomic (non-node) XPath value: integer, floating value, decimal,
string, boolean, or the untyped-atomic marker that distinguishes string
content with no known type from an explicitly-typed string. -/
inductive Atomic where
  | intV (n : Int)
  | floatV (f : FloatV)
  | decimalV (d : DecimalV)
  | strV (s : String)
  | boolV (b : Bool)
  | untyped (s : String)
deriving DecidableEq, Repr

/-- Modelled from the spec: the narrow type-lookup protocol the evaluator
needs from an external schema provider.  A type answers `is_simple` (an
indeterminate provider may answer neither true nor false, modelled by
`none`), `has_simple_content`, exposes a decode capability
(`decodeFn`, returning the typed value on success), and, for complex
content, its declared child structure as a list of child tags. -/
structure XsdType where
  name : String := ""
  is_simple : Option Bool := some true
  has_simple_content : Option Bool := none
  decodeFn : String → Option Atomic := fun _ => none
  childTags : List String := []

/-! ## The node model -/

/-- Modelled from the spec: the closed set of node variants an XPath
expression can address.  Each text-bearing variant carries its literal
content and an optional bound XSD type.  Parent relations are queried
through the surrounding tree, so nodes store only downward structure. -/
inductive Node where
  | document (children : List Node)
  | element (tag : String) (text : String) (children : List Node)
      (xsdType : Option XsdType)
  | attribute (name : String) (value : String) (xsdType : Option XsdType)
  | nsNode (pfx : String) (uri : String)
  | comment (content : String)
  | procInst (target : String) (data : String)
  | textN (content : String) (xsdType : Option XsdType)

/-- An item of an XPath sequence: a node, an atomic value, or an
arbitrary host-language object that is neither (carrying only its
generic textual representation). -/
inductive Item where
  | node (n : Node)
  | atomic (a : Atomic)
  | obj (repr_ : String)

/-- Whether an item is a node. -/
def Item.isNode : Item → Bool
  | .node _ => true
  | _ => false

/-! ## The error taxonomy -/

/-- The five error kinds, which select the host-visible exception
class: syntax, type, value, missing-context and missing-name errors. -/
inductive ErrorKind where
  | synError
  | typeError
  | valueError
  | missingContextError
  | nameError
deriving DecidableEq, Repr

/-- A structured XPath error: an error kind, a `<4-letter><4-digit>`
code, and a human-readable message. -/
structure XPathErr where
  kind : ErrorKind
  code : String
  message : String
deriving DecidableEq, Repr

/-! ## Effective boolean value -/

/-- A value passed to the value-coercion accessors: a sequence of items,
a single item, or the absent value. -/
inductive SeqVal where
  | seq (items : List Item)
  | one (i : Item)
  | absent

/-- Modelled from the spec: type-specific truthiness of a singleton
atomic value — empty string, zero and NaN are false, everything else is
true. -/
def Atomic.truthy : Atomic → Bool
  | .intV n => n != 0
  | .floatV .nan => false
  | .floatV (.finite _ m _) => m != 0
  | .floatV _ => true
  | .decimalV d => d.unscaled != 0
  | .strV s => s != ""
  | .boolV b => b
  | .untyped s => s != ""

/-- Truthiness of a single item: a node is true, an atomic value follows
type-specific truthiness, an arbitrary object is true. -/
def Item.truthy : Item → Bool
  | .node _ => true
  | .atomic a => a.truthy
  | .obj _ => true

/-- The error raised on an ambiguous boolean coercion of a sequence of
length greater than one whose first item is not a node. -/
def ambiguousBooleanErr : XPathErr :=
  ⟨.typeError, "FORG0006",
    "effective boolean value is not defined for a sequence of two or more items not starting with a node"⟩

/-- Modelled from the spec: `boolean_value(value)` computes the
effective boolean value — the empty sequence is false; a sequence whose
first item is a node is true; a sequence of length greater than one
whose first item is not a node is a type error (ambiguous boolean
coercion); a singleton atomic value follows type-specific truthiness; a
single node is true; the absent value is false. -/
def boolean_value : SeqVal → Except XPathErr Bool
  | .seq [] => .ok false
  | .seq (x :: xs) =>
      if x.isNode then .ok true
      else if xs.isEmpty then .ok x.truthy
      else .error ambiguousBooleanErr
  | .one i => .ok i.truthy
  | .absent => .ok false

/-! ## Canonical lexical formatting of numeric values -/

/-- The decimal digit character for a digit below ten. -/
def digitChar : Nat → Char
  | 0 => '0' | 1 => '1' | 2 => '2' | 3 => '3' | 4 => '4'
  | 5 => '5' | 6 => '6' | 7 => '7' | 8 => '8' | 9 => '9'
  | _ + 10 => '*'

/-- Digit extraction with explicit fuel, so that it reduces by
structural recursion. -/
def natDigitsAux : Nat → Nat → List Char
  | 0, _ => []
  | fuel + 1, n =>
      if n < 10 then [digitChar n]
      else natDigitsAux fuel (n / 10) ++ [digitChar (n % 10)]

/-- The decimal digits of a natural number, most significant first. -/
def natDigits (n : Nat) : List Char := natDigitsAux (n + 1) n

/-- The decimal digit string of a natural number. -/
def natStr (n : Nat) : String := String.mk (natDigits n)

/-- The number of decimal digits of a natural number. -/
def numDigits (n : Nat) : Nat := (natDigits n).length

/-- Left-pad a digit list with zeros up to length `k`. -/
def padDigits (ds : List Char) (k : Nat) : List Char :=
  List.replicate (k - ds.length) '0' ++ ds

/-- Drop trailing zero digits. -/
def trimZeros (ds : List Char) : List Char :=
  (ds.reverse.dropWhile (· = '0')).reverse

/-- The padded digit list of `unscaled` for a rendering with `scale`
fractional digits. -/
def posDigits (unscaled scale : Nat) : List Char :=
  padDigits (natDigits unscaled) (scale + 1)

/-- The integer-part digits of the positional rendering. -/
def posInt (unscaled scale : Nat) : List Char :=
  (posDigits unscaled scale).take ((posDigits unscaled scale).length - scale)

/-- The fractional-part digits of the positional rendering, with
trailing zeros trimmed. -/
def posFrac (unscaled scale : Nat) : List Char :=
  trimZeros ((posDigits unscaled scale).drop
    ((posDigits unscaled scale).length - scale))

/-- Positional rendering of `unscaled · 10 ^ (- scale)`: the digit
string split `scale` places from the right, with trailing fractional
zeros trimmed and at least the integer part kept. -/
def positional (unscaled scale : Nat) : String :=
  if (posFrac unscaled scale).isEmpty then String.mk (posInt unscaled scale)
  else String.mk (posInt unscaled scale) ++ "." ++
    String.mk (posFrac unscaled scale)

/-- Modelled from the spec: canonical lexical form of a decimal value —
trailing fractional zeros are trimmed but at least the integer part is
kept. -/
def decimalLexical (d : DecimalV) : String :=
  (if d.neg then "-" else "") ++ positional d.unscaled d.scale

/-- Canonical lexical form of an integer. -/
def intLexical (n : Int) : String :=
  (if n < 0 then "-" else "") ++ natStr n.natAbs

/-- The decimal exponent of `mantissa · 10 ^ exp10` in normalized
scientific form `d.ddd · 10 ^ decExp`. -/
def decExp (m : Nat) (e : Int) : Int := (numDigits m : Int) - 1 + e

/-- A natural number rendered with at least two digits. -/
def pad2 (n : Nat) : String := if n < 10 then "0" ++ natStr n else natStr n

/-- The uppercase exponent marker of normalized scientific form. -/
def expMarker (x : Int) : String :=
  if x < 0 then "E-" ++ pad2 x.natAbs else "E" ++ pad2 x.natAbs

/-- Normalized scientific rendering of `mantissa · 10 ^ exp10` with the
uppercase exponent marker. -/
def sciLexical (m : Nat) (e : Int) : String :=
  match natDigits m with
  | [] => "0"
  | d :: ds =>
      (if ds.isEmpty then String.mk [d]
       else String.mk [d] ++ "." ++ String.mk ds) ++ expMarker (decExp m e)

/-- Positional rendering of a finite floating value
`mantissa · 10 ^ exp10`: an integral value prints without a fractional
part, a fractional one like a decimal value. -/
def floatPositional (m : Nat) (e : Int) : String :=
  if 0 ≤ e then natStr m ++ String.mk (List.replicate e.toNat '0')
  else positional m e.natAbs

/-- Modelled from the spec: canonical XPath lexical formatting of a
floating value — the special values print as `NaN`, `INF` and `-INF`;
very large or small magnitudes print in normalized scientific notation
with an uppercase exponent marker; other values print positionally,
integral values without a fractional part. -/
def floatLexical : FloatV → String
  | .nan => "NaN"
  | .inf => "INF"
  | .negInf => "-INF"
  | .finite neg m e =>
      (if neg then "-" else "") ++
        (if decExp m e < -4 ∨ 16 ≤ decExp m e then sciLexical m e
         else floatPositional m e)

/-! ## String value -/

mutual

/-- Modelled from the spec: per-node-kind string derivation — document
and element nodes concatenate all descendant text in document order;
attribute, namespace, comment and text nodes give their stored literal
text; a processing instruction joins target and data by a single
space. -/
def nodeStringValue : Node → String
  | .document cs => nodesStringValue cs
  | .element _ t cs _ => t ++ nodesStringValue cs
  | .attribute _ v _ => v
  | .nsNode _ uri => uri
  | .comment c => c
  | .procInst t d => t ++ " " ++ d
  | .textN c _ => c

/-- Concatenated string values of a list of nodes. -/
def nodesStringValue : List Node → String
  | [] => ""
  | n :: ns => nodeStringValue n ++ nodesStringValue ns

end

/-- Modelled from the spec: `string_value(value)` — nodes use per-kind
string derivation; numeric values use canonical XPath lexical
formatting; the absent value yields empty text; non-node, non-numeric
objects fall back to a generic textual representation. -/
def string_value : Option Item → String
  | none => ""
  | some (.node n) => nodeStringValue n
  | some (.atomic (.intV n)) => intLexical n
  | some (.atomic (.floatV f)) => floatLexical f
  | some (.atomic (.decimalV d)) => decimalLexical d
  | some (.atomic (.strV s)) => s
  | some (.atomic (.untyped s)) => s
  | some (.atomic (.boolV b)) => if b then "true" else "false"
  | some (.obj r) => r

/-! ## Data value -/

/-- The typed value decoded through a bound type, falling back to the
untyped-atomic marker when the decode fails. -/
def typedValueOf (t : XsdType) (content : String) : Atomic :=
  (t.decodeFn content).getD (.untyped content)

/-- Modelled from the spec: `data_value(node)` resolves a node to its
most specific available value — schema-typed content decodes through
the bound type; untyped text or attribute content becomes an
untyped-atomic marker distinct from a plain string; comments,
processing instructions and namespace nodes yield their literal text;
the absent value yields the absent value; non-node values pass through
unchanged, with no type inspection performed on them. -/
def data_value : Option Item → Option Item
  | none => none
  | some (.node (.document cs)) =>
      some (.atomic (.untyped (nodesStringValue cs)))
  | some (.node (.element _tag tx cs ty)) =>
      match ty with
      | some t =>
          some (.atomic (typedValueOf t (tx ++ nodesStringValue cs)))
      | none => some (.atomic (.untyped (tx ++ nodesStringValue cs)))
  | some (.node (.attribute _ v ty)) =>
      match ty with
      | some t => some (.atomic (typedValueOf t v))
      | none => some (.atomic (.untyped v))
  | some (.node (.textN c ty)) =>
      match ty with
      | some t => some (.atomic (typedValueOf t c))
      | none => some (.atomic (.untyped c))
  | some (.node (.nsNode _ uri)) => some (.atomic (.strV uri))
  | some (.node (.comment c)) => some (.atomic (.strV c))
  | some (.node (.procInst t d)) => some (.atomic (.strV (t ++ " " ++ d)))
  | some (.atomic a) => some (.atomic a)
  | some (.obj r) => some (.obj r)

/-! ## Substring containment -/

/-- Whether the first list occurs at the head of the second. -/
def leadsList : List Char → List Char → Bool
  | [], _ => true
  | _ :: _, [] => false
  | a :: as, b :: bs => a == b && leadsList as bs

/-- Whether `pat` occurs inside the list as a contiguous run. -/
def occursIn (pat : List Char) : List Char → Bool
  | [] => leadsList pat []
  | b :: bs => leadsList pat (b :: bs) || occursIn pat bs

/-- Whether `pat` occurs inside `s` as a contiguous substring. -/
def strContains (s pat : String) : Bool := occursIn pat.data s.data

/-! ## Collation / locale scope -/

/-- The reserved codepoint collation identifier. -/
def UNICODE_CODEPOINT_COLLATION : String :=
  "http://www.w3.org/2005/xpath-functions/collation/codepoint"

/-- The process-wide locale state: the current LC_COLLATE setting. -/
structure LocaleState where
  lc_collate : String
deriving DecidableEq, Repr

/-- Modelled from the spec: resolving a collation identifier — the
reserved identifier selects the fixed code-point ordering, anything
else is treated as a locale-and-collation identifier. -/
def resolveCollation (collation : String) : String :=
  if collation = UNICODE_CODEPOINT_COLLATION then "en_US.UTF-8" else collation

/-- Modelled from the spec: `use_locale(collation)` is a scoped
acquisition — an empty or absent collation is a type error `XPTY0004`
with message "collation cannot be an empty sequence"; otherwise the
process-wide LC_COLLATE setting is switched to the resolved collation
for the duration of the scope and unconditionally restored on every
exit path.  The result carries the setting in effect inside the scope
and the setting restored after exit. -/
def use_locale (collation : Option String) (prior : LocaleState) :
    Except XPathErr (LocaleState × LocaleState) :=
  match collation with
  | none =>
      .error ⟨.typeError, "XPTY0004", "collation cannot be an empty sequence"⟩
  | some c => .ok (⟨resolveCollation c⟩, prior)

/-! ## The error taxonomy table and shortcut operations -/

/-- A minimal model of the parser state the error operations consult: a
namespace-prefix mapping and the backward-compatibility flag of the
dialect. -/
structure Parser where
  namespaces : List (String × String)
  compatibility_mode : Bool

/-- Resolve a namespace alias in the parser's namespace mapping. -/
def lookupNs (p : Parser) (pfx : String) : Option String :=
  (p.namespaces.find? (fun kv => kv.1 == pfx)).map Prod.snd

/-- Modelled from the spec: the canonical table mapping each XPath
error code used by the mnemonic shortcut operations to its error kind
and default message. -/
def errorTable : List (String × ErrorKind × String) :=
  [ ("FOCA0002", .valueError, "invalid lexical value"),
    ("FORG0006", .typeError, "invalid argument type"),
    ("XPDY0002", .missingContextError, "dynamic context required for evaluate"),
    ("XPTY0004", .typeError, "wrong context type"),
    ("XPST0008", .nameError, "name not found"),
    ("XPST0010", .nameError, "axis not found"),
    ("XPST0003", .synError, "invalid expression"),
    ("XPST0017", .typeError, "wrong number of arguments"),
    ("XPDY0050", .typeError, "wrong sequence type"),
    ("XPST0051", .nameError, "unknown atomic type"),
    ("FORG0001", .valueError, "invalid value for cast or constructor") ]

/-- The structured error for a code of the canonical table, with its
kind and default message. -/
def tableErr (code : String) : XPathErr :=
  match errorTable.find? (fun ent => ent.1 == code) with
  | some ent => ⟨ent.2.1, ent.1, ent.2.2⟩
  | none => ⟨.typeError, "XPTY0004", "unknown XPath error code " ++ code⟩

/-- Modelled from the spec: `wrong_value` raises a value-kind error
with code `FOCA0002`. -/
def wrong_value : XPathErr := tableErr "FOCA0002"

/-- Modelled from the spec: `wrong_type` raises a type-kind error with
code `FORG0006`. -/
def wrong_type : XPathErr := tableErr "FORG0006"

/-- Modelled from the spec: `missing_context` raises a missing-context
error with code `XPDY0002`. -/
def missing_context : XPathErr := tableErr "XPDY0002"

/-- Modelled from the spec: `wrong_context_type` raises a type-kind
error with code `XPTY0004`. -/
def wrong_context_type : XPathErr := tableErr "XPTY0004"

/-- Modelled from the spec: `missing_name` raises a missing-name error
with code `XPST0008`. -/
def missing_name : XPathErr := tableErr "XPST0008"

/-- Modelled from the spec: `missing_axis` is dialect-sensitive — in
the backward-compatibility mode it is a missing-name-kind error with
code `XPST0010`, otherwise a syntax-kind error with code `XPST0003`. -/
def missing_axis (p : Parser) : XPathErr :=
  if p.compatibility_mode then tableErr "XPST0010" else tableErr "XPST0003"

/-- Modelled from the spec: `wrong_nargs` raises a type-kind error with
code `XPST0017`. -/
def wrong_nargs : XPathErr := tableErr "XPST0017"

/-- Modelled from the spec: `wrong_sequence_type` raises a type-kind
error with code `XPDY0050`. -/
def wrong_sequence_type : XPathErr := tableErr "XPDY0050"

/-- Modelled from the spec: `unknown_atomic_type` raises a
missing-name-kind error with code `XPST0051`. -/
def unknown_atomic_type : XPathErr := tableErr "XPST0051"

/-! ## Schema-aware type binding -/

/-- The `xsd_types` mapping of a token: an insertion-ordered
association from a matched local name to its ordered type
alternatives. -/
abbrev XsdTypes := List (String × List XsdType)

/-- Record a type under a name: a new name is appended, an existing
name accumulates the type as a further ordered alternative rather than
being overwritten. -/
def recordType (m : XsdTypes) (name : String) (t : XsdType) : XsdTypes :=
  match m with
  | [] => [(name, [t])]
  | (k, ts) :: rest =>
      if k = name then (k, ts ++ [t]) :: rest
      else (k, ts) :: recordType rest name t

/-- Look up the recorded alternatives of a name. -/
def lookupTypes (m : XsdTypes) (name : String) : Option (List XsdType) :=
  (m.find? (fun kv => kv.1 == name)).map Prod.snd

/-- An argument passed to `add_xsd_type`: a schema element or attribute
declaration, a schema-typed node, or a non-schema item that is neither
(carrying only its textual representation). -/
inductive SchemaItem where
  | decl (local_name : String) (ty : XsdType)
  | typedNode (local_name : String) (ty : XsdType)
  | nonSchema (repr_ : String)

/-- Modelled from the spec: `add_xsd_type` ignores non-schema inputs;
otherwise records, under the declaration's local name, its type — if a
name already has a recorded type, alternatives accumulate in insertion
order rather than overwrite.  Returns the new mapping and the recorded
type. -/
def add_xsd_type :
    SchemaItem → Option XsdTypes → Option XsdTypes × Option XsdType
  | .nonSchema _, st => (st, none)
  | .decl n t, st => (some (recordType (st.getD []) n t), some t)
  | .typedNode n t, st => (some (recordType (st.getD []) n t), some t)

/-- The matched name of an instance node, if any. -/
def Node.matchedName : Node → Option String
  | .element tag _ _ _ => some tag
  | .attribute nm _ _ => some nm
  | _ => none

/-- The literal scalar content of an instance node. -/
def Node.content : Node → String
  | .element _ tx _ _ => tx
  | .attribute _ v _ => v
  | .textN c _ => c
  | _ => ""

/-- The actual child element tags of an instance node. -/
def Node.childTagList : Node → List String
  | .element _ _ cs _ =>
      cs.filterMap fun c =>
        match c with
        | .element tag _ _ _ => some tag
        | _ => none
  | _ => []

/-- The type already bound on an instance node, if any. -/
def Node.boundType : Node → Option XsdType
  | .element _ _ _ ty => ty
  | .attribute _ _ ty => ty
  | .textN _ ty => ty
  | _ => none

/-- The argument of `get_xsd_type`: a plain name or an instance node. -/
inductive NameOrNode where
  | plainName (s : String)
  | instNode (n : Node)

/-- Modelled from the spec: `get_xsd_type(name_or_node)` returns the
recorded type of a plain name (the first alternative when several are
recorded); a node already carrying a resolved type returns it
unchanged; for an instance node it narrows a multi-candidate set — for
a leaf scalar it probes each candidate's decode capability against the
node's literal content in insertion order and returns the first that
decodes successfully, falling back to the first candidate when none
decode; for a node with children it returns the candidate whose
declared child structure matches the node's actual child tags, or the
first candidate if none match structurally. -/
def get_xsd_type (st : Option XsdTypes) : NameOrNode → Option XsdType
  | .plainName s => (lookupTypes (st.getD []) s).bind List.head?
  | .instNode n =>
      match n.boundType with
      | some t => some t
      | none =>
          match n.matchedName with
          | none => none
          | some nm =>
              match lookupTypes (st.getD []) nm with
              | none => none
              | some [] => none
              | some [t] => some t
              | some (t :: ts) =>
                  if n.childTagList.isEmpty then
                    some (((t :: ts).find?
                      (fun x => (x.decodeFn n.content).isSome)).getD t)
                  else
                    some (((t :: ts).find?
                      (fun x => x.childTags == n.childTagList)).getD t)

/-! ## Model schema types with concrete lexical spaces -/

/-- The numeric value of a decimal digit character. -/
def digitVal (c : Char) : Option Nat :=
  if 48 ≤ c.toNat ∧ c.toNat ≤ 57 then some (c.toNat - 48) else none

/-- Parse a nonempty run of digit characters into its value. -/
def parseDigitsAcc : List Char → Nat → Option Nat
  | [], acc => some acc
  | c :: cs, acc =>
      match digitVal c with
      | some d => parseDigitsAcc cs (acc * 10 + d)
      | none => none

/-- Parse an unsigned decimal numeral, with an optional single point,
into its unscaled value and scale. -/
def parseUnsigned (cs : List Char) : Option (Nat × Nat) :=
  match cs.span (fun c => c != '.') with
  | (ip, rest) =>
      match rest with
      | [] =>
          if ip.isEmpty then none
          else (parseDigitsAcc ip 0).map fun u => (u, 0)
      | _ :: fp =>
          if fp.any (fun c => c == '.') then none
          else if ip.isEmpty && fp.isEmpty then none
          else (parseDigitsAcc (ip ++ fp) 0).map fun u => (u, fp.length)

/-- Parse an optionally signed decimal numeral into a decimal value. -/
def parseDecimalLex (s : String) : Option DecimalV :=
  match s.data with
  | '+' :: rest => (parseUnsigned rest).map fun p => ⟨false, p.1, p.2⟩
  | '-' :: rest => (parseUnsigned rest).map fun p => ⟨true, p.1, p.2⟩
  | cs => (parseUnsigned cs).map fun p => ⟨false, p.1, p.2⟩

/-- A model XSD float type: a simple type decoding decimal numerals and
the three special values. -/
def xsFloat : XsdType :=
  { name := "float", is_simple := some true,
    decodeFn := fun s =>
      if s = "NaN" then some (.floatV .nan)
      else if s = "INF" then some (.floatV .inf)
      else if s = "-INF" then some (.floatV .negInf)
      else (parseDecimalLex s).map fun d =>
        .floatV (.finite d.neg d.unscaled (-(d.scale : Int))) }

/-- A model XSD boolean type: a simple type decoding the four boolean
literals. -/
def xsBoolean : XsdType :=
  { name := "boolean", is_simple := some true,
    decodeFn := fun s =>
      if s = "true" || s = "1" then some (.boolV true)
      else if s = "false" || s = "0" then some (.boolV false)
      else none }

/-- A model XSD decimal type: a simple type decoding decimal
numerals. -/
def xsDecimal : XsdType :=
  { name := "decimal", is_simple := some true,
    decodeFn := fun s => (parseDecimalLex s).map (.decimalV ·) }

/-- A model XSD int type: a simple type decoding unscaled decimal
numerals. -/
def xsInt : XsdType :=
  { name := "int", is_simple := some true,
    decodeFn := fun s =>
      match parseDecimalLex s with
      | some ⟨neg, u, 0⟩ => some (.intV (if neg then -(u : Int) else (u : Int)))
      | _ => none }

/-- A model complex type declaring the child structure `b1, b2`. -/
def aType : XsdType :=
  { name := "aType", is_simple := some false, childTags := ["b1", "b2"] }

/-- A model type answering `is_simple` false and `has_simple_content`
true, decoding integers (like the patched dummy type of the repository
tests). -/
def dummyXsdType : XsdType :=
  { name := "", is_simple := some false, has_simple_content := some true,
    decodeFn := xsInt.decodeFn }

/-! ## Result selection -/

/-- The value a node view surfaces when no typed coercion applies: a
node is a lightweight view over its backing value, so an element or
document surfaces as the node, while an attribute or text view
surfaces its literal backing string (as observed in the repository's
`test_select_results`). -/
def nodeBacking (n : Node) : Item :=
  match n with
  | .attribute _ v _ => .atomic (.strV v)
  | .textN c _ => .atomic (.strV c)
  | _ => .node n

/-- Modelled from the spec: item-wise normalization of a raw evaluated
sequence by node-typed coercion — a node whose bound schema type is a
determinate simple type yields its typed value; a node whose bound
type is indeterminate or whose content is complex yields the node
itself unchanged (surfacing as its backing value, with no typed
coercion applied); a non-node value passes through unchanged. -/
def normalizeResult : Item → Item
  | .node n =>
      match n.boundType with
      | some t =>
          if t.is_simple = some true then .atomic (typedValueOf t n.content)
          else nodeBacking n
      | none => nodeBacking n
  | .atomic a => .atomic a
  | .obj r => .obj r

/-- Modelled from the spec: `select_results(context)` normalizes each
item of the evaluated sequence by node-typed coercion. -/
def select_results (results : List Item) : List Item :=
  results.map normalizeResult

/-! ## The generic error accessor -/

/-- Split a string at every colon. -/
def splitColonAux : List Char → List Char → List String
  | [], acc => [String.mk acc.reverse]
  | c :: rest, acc =>
      if c = ':' then String.mk acc.reverse :: splitColonAux rest []
      else splitColonAux rest (c :: acc)

/-- The colon-separated parts of a string. -/
def splitColon (s : String) : List String := splitColonAux s.data []

/-- The fixed XPath-errors namespace. -/
def xqtErrorsNamespace : String := "http://www.w3.org/2005/xqt-errors"

/-- The known XPath error codes: the codes of the canonical table. -/
def knownErrorCodes : List String := errorTable.map Prod.fst

/-- Modelled from the spec: the generic `error(code)` accessor accepts
a code optionally prefixed with a namespace alias; an alias that does
not resolve to the fixed XPath-errors namespace is a type error naming
the required namespace; a malformed doubly-prefixed code is a type
error ("is not a prefixed name"); a code outside the known set is a
type error ("unknown XPath error code"); otherwise the structured
error of the canonical table is produced. -/
def error (p : Parser) (code : String) : XPathErr :=
  match splitColon code with
  | [c] =>
      if knownErrorCodes.contains c then tableErr c
      else ⟨.typeError, "XPTY0004", "unknown XPath error code " ++ c⟩
  | [pfx, c] =>
      if lookupNs p pfx = some xqtErrorsNamespace then
        if knownErrorCodes.contains c then tableErr c
        else ⟨.typeError, "XPTY0004", "unknown XPath error code " ++ c⟩
      else
        ⟨.typeError, "XPTY0004",
          "the " ++ xqtErrorsNamespace ++ " namespace is required"⟩
  | _ => ⟨.typeError, "XPTY0004", code ++ " is not a prefixed name"⟩

/-- A parser with the default namespace bindings relevant here: the
`err` alias bound to the XPath-errors namespace, alongside the `xml`
and `xs` bindings. -/
def defaultParser : Parser :=
  ⟨[("err", xqtErrorsNamespace),
    ("xml", "http://www.w3.org/XML/1998/namespace"),
    ("xs", "http://www.w3.org/2001/XMLSchema")], false⟩

/-! ## The tokenizer and parser of the modelled path-expression grammar -/

/-- A lexeme of query text: the punctuation of path expressions,
names and numeric literals. -/
inductive Lexeme where
  | slash
  | atSign
  | lbrack
  | rbrack
  | lparen
  | rparen
  | nameLx (s : String)
  | numLx (s : String)
deriving DecidableEq, Repr

/-- A numeric-literal character: a digit or the decimal point. -/
def isNumChar (c : Char) : Bool := c.isDigit || c == '.'

/-- Modelled from the spec: the tokenizer lexes query text into
lexemes, skipping insignificant whitespace; an unrecognized character
fails.  Fuel-based so that it reduces by structural recursion; one
character is consumed per step, so `length + 1` fuel suffices. -/
def lexAux : Nat → List Char → Option (List Lexeme)
  | 0, _ => none
  | _ + 1, [] => some []
  | fuel + 1, c :: cs =>
      if c = ' ' ∨ c = '\n' ∨ c = '\t' then lexAux fuel cs
      else if c = '/' then (lexAux fuel cs).map (.slash :: ·)
      else if c = '@' then (lexAux fuel cs).map (.atSign :: ·)
      else if c = '[' then (lexAux fuel cs).map (.lbrack :: ·)
      else if c = ']' then (lexAux fuel cs).map (.rbrack :: ·)
      else if c = '(' then (lexAux fuel cs).map (.lparen :: ·)
      else if c = ')' then (lexAux fuel cs).map (.rparen :: ·)
      else if c.isAlpha then
        (lexAux fuel (cs.dropWhile Char.isAlpha)).map
          (.nameLx (String.mk (c :: cs.takeWhile Char.isAlpha)) :: ·)
      else if c.isDigit then
        (lexAux fuel (cs.dropWhile isNumChar)).map
          (.numLx (String.mk (c :: cs.takeWhile isNumChar)) :: ·)
      else none

/-- Lex a query string. -/
def lex (s : String) : Option (List Lexeme) :=
  lexAux (s.data.length + 1) s.data

/-- The text of a lexeme. -/
def lexemeStr : Lexeme → String
  | .slash => "/"
  | .atSign => "@"
  | .lbrack => "["
  | .rbrack => "]"
  | .lparen => "("
  | .rparen => ")"
  | .nameLx s => s
  | .numLx s => s

/-- Render a lexeme list back to text, with no insignificant
whitespace. -/
def detok : List Lexeme → String
  | [] => ""
  | l :: ls => lexemeStr l ++ detok ls

/-- Modelled from the spec: a query text with its insignificant
whitespace normalized — its lexemes rendered back-to-back. -/
def normalizeWs (s : String) : String :=
  match lex s with
  | some ls => detok ls
  | none => s

/-- An AST token of the modelled grammar: one syntactic unit carrying
its symbol and its ordered children.  `rootStep` is the leading `/`
with one child, `pathStep` the infix `/` with two children, `predT`
the `[` predicate postfix, `attrT` the `@` attribute-axis step,
`funcT` a zero-argument function call, and `nameT`/`numT` the name
test and numeric literal leaves. -/
inductive XToken where
  | nameT (s : String)
  | numT (s : String)
  | funcT (s : String)
  | rootStep (child : XToken)
  | pathStep (l r : XToken)
  | predT (base pred : XToken)
  | attrT (child : XToken)
deriving DecidableEq, Repr

/-- Modelled from the spec: a token's `source` text, the minimal
substring reproducing the token and its subtree, reconstructed purely
from symbol plus children. -/
def source : XToken → String
  | .nameT s => s
  | .numT s => s
  | .funcT s => s ++ "()"
  | .rootStep t => "/" ++ source t
  | .pathStep l r => source l ++ "/" ++ source r
  | .predT b p => source b ++ "[" ++ source p ++ "]"
  | .attrT t => "@" ++ source t

/-- The lexemes a token's subtree covers, reconstructed purely from
symbol plus children. -/
def srcLex : XToken → List Lexeme
  | .nameT s => [.nameLx s]
  | .numT s => [.numLx s]
  | .funcT s => [.nameLx s, .lparen, .rparen]
  | .rootStep t => .slash :: srcLex t
  | .pathStep l r => srcLex l ++ .slash :: srcLex r
  | .predT b p => srcLex b ++ .lbrack :: (srcLex p ++ [.rbrack])
  | .attrT t => .atSign :: srcLex t

/-- The prefix build rule: a primary token is an attribute-axis step,
a zero-argument function call, a name test or a numeric literal. -/
def parsePrimary : List Lexeme → Option (XToken × List Lexeme)
  | .atSign :: .nameLx s :: rest => some (.attrT (.nameT s), rest)
  | .nameLx s :: .lparen :: .rparen :: rest => some (.funcT s, rest)
  | .nameLx s :: rest => some (.nameT s, rest)
  | .numLx s :: rest => some (.numT s, rest)
  | _ => none

mutual

/-- A step: a primary token followed by its predicate postfixes. -/
def parseStep : Nat → List Lexeme → Option (XToken × List Lexeme)
  | 0, _ => none
  | fuel + 1, ls =>
      match parsePrimary ls with
      | some (t, rest) => parsePreds fuel t rest
      | none => none

/-- Zero or more `[` predicate `]` postfixes attached to `acc`. -/
def parsePreds : Nat → XToken → List Lexeme → Option (XToken × List Lexeme)
  | 0, _, _ => none
  | fuel + 1, acc, ls =>
      match ls with
      | .lbrack :: rest =>
          match parsePath fuel rest with
          | none => none
          | some (inner, rest2) =>
              match rest2 with
              | .rbrack :: rest3 => parsePreds fuel (.predT acc inner) rest3
              | _ => none
      | _ => some (acc, ls)

/-- Zero or more infix `/` steps combined left-associatively onto
`acc`. -/
def parseSlashes : Nat → XToken → List Lexeme → Option (XToken × List Lexeme)
  | 0, _, _ => none
  | fuel + 1, acc, ls =>
      match ls with
      | .slash :: rest =>
          match parseStep fuel rest with
          | some (st, rest2) => parseSlashes fuel (.pathStep acc st) rest2
          | none => none
      | _ => some (acc, ls)

/-- Modelled from the spec: precedence-climbing parsing of a path
expression — a leading `/` starts a rooted path, then infix `/` build
rules consume further steps left-associatively. -/
def parsePath : Nat → List Lexeme → Option (XToken × List Lexeme)
  | 0, _ => none
  | fuel + 1, ls =>
      match ls with
      | .slash :: rest =>
          match parseStep fuel rest with
          | some (st, rest2) => parseSlashes fuel (.rootStep st) rest2
          | none => none
      | _ =>
          match parseStep fuel ls with
          | some (st, rest) => parseSlashes fuel st rest
          | none => none

end

/-- Modelled from the spec: `parse(text)` produces one root AST token,
failing when the text does not lex or leaves unconsumed lexemes. -/
def parse (s : String) : Option XToken :=
  match lex s with
  | none => none
  | some ls =>
      match parsePath (4 * ls.length + 4) ls with
      | some (t, []) => some t
      | _ => none

/-- The tokens of a subtree in document order: children of an infix
token surround it, a prefix token precedes its child. -/
def iterTokens : XToken → List XToken
  | .nameT s => [.nameT s]
  | .numT s => [.numT s]
  | .funcT s => [.funcT s]
  | .rootStep t => .rootStep t :: iterTokens t
  | .attrT t => .attrT t :: iterTokens t
  | .pathStep l r => iterTokens l ++ .pathStep l r :: iterTokens r
  | .predT b p => iterTokens b ++ .predT b p :: iterTokens p

/-- Whether a token's symbol is `/`. -/
def XToken.isSlash : XToken → Bool
  | .rootStep _ => true
  | .pathStep _ _ => true
  | _ => false

/-- The sources of the `/`-symbol subtokens of a token, in document
order. -/
def slashSources (t : XToken) : List String :=
  (iterTokens t).filterMap fun st =>
    if st.isSlash then some (source st) else none

end ElementPath

namespace ElementPath

/-- No decimal digit character is the decimal point. -/
theorem digitChar_ne_dot (d : Nat) : digitChar d ≠ '.' := by
  rcases d with _|_|_|_|_|_|_|_|_|_|d <;>
    first
    | decide
    | exact (by decide : ('*' : Char) ≠ '.')

/-- Every character produced by digit extraction is a digit character,
in particular never the decimal point. -/
theorem natDigitsAux_ne_dot (fuel : Nat) :
    ∀ n, ∀ c ∈ natDigitsAux fuel n, c ≠ '.' := by
  induction fuel with
  | zero =>
    intro n c hc
    simp [natDigitsAux] at hc
  | succ fuel ih =>
    intro n c hc
    rw [natDigitsAux] at hc
    split at hc
    · rcases List.mem_singleton.mp hc with rfl
      exact digitChar_ne_dot n
    · rcases List.mem_append.mp hc with h | h
      · exact ih (n / 10) c h
      · rcases List.mem_singleton.mp h with rfl
        exact digitChar_ne_dot (n % 10)

/-- Every character of a natural number's digit string is a digit, in
particular never the decimal point. -/
theorem natDigits_ne_dot (n : Nat) : ∀ c ∈ natDigits n, c ≠ '.' :=
  natDigitsAux_ne_dot (n + 1) n

/-- The data of an appended string is the appended data. -/
theorem strData_append (a b : String) : (a ++ b).data = a.data ++ b.data := rfl

/-- A natural number has at least one digit. -/
theorem natDigits_ne_nil (n : Nat) : natDigits n ≠ [] := by
  rw [natDigits, natDigitsAux]
  split <;> simp

/-- C1: `boolean_value` computes the effective boolean value: the empty
sequence is false; a singleton list holding a node is true; any sequence
of length greater than one whose first item is not a node raises a type
error; the atomic values 0 and the absent value give false; the atomic
values 1 and 1.0 give true. -/
theorem boolean_value_spec :
    boolean_value (.seq []) = .ok false ∧
    (∀ n : Node, boolean_value (.seq [.node n]) = .ok true) ∧
    (∀ (x : Item) (xs : List Item), x.isNode = false → xs ≠ [] →
      boolean_value (.seq (x :: xs)) = .error ambiguousBooleanErr) ∧
    boolean_value (.one (.atomic (.intV 0))) = .ok false ∧
    boolean_value .absent = .ok false ∧
    boolean_value (.one (.atomic (.intV 1))) = .ok true ∧
    boolean_value (.one (.atomic (.floatV (.finite false 1 0)))) = .ok true := by
  refine ⟨rfl, fun n => rfl, fun x xs hx hxs => ?_, rfl, rfl, rfl, rfl⟩
  simp only [boolean_value, hx, Bool.false_eq_true, if_false, List.isEmpty_eq_true, hxs]

/-- Witness for C1 at concrete inputs: the sequence `[1, 1]` has a
non-node first item and length two, and its boolean coercion fails. -/
theorem boolean_value_spec_witness :
    (Item.atomic (.intV 1)).isNode = false ∧
    ([Item.atomic (.intV 1)] ≠ ([] : List Item)) ∧
    boolean_value (.seq [.atomic (.intV 1), .atomic (.intV 1)]) =
      .error ambiguousBooleanErr ∧
    boolean_value (.seq [.node (.comment "c")]) = .ok true := by
  refine ⟨rfl, by simp, ?_, (boolean_value_spec.2.1 (.comment "c"))⟩
  exact boolean_value_spec.2.2.1 (.atomic (.intV 1)) [.atomic (.intV 1)] rfl (by simp)

/-- After dropping leading zero digits, the head is not a zero digit. -/
theorem dropWhile_zero_head (l : List Char) :
    (l.dropWhile (· = '0')).head? ≠ some '0' := by
  induction l with
  | nil => simp
  | cons a l ih =>
      by_cases h : a = '0'
      · simpa [List.dropWhile, h] using ih
      · simp [List.dropWhile, h]

/-- Trimming trailing zeros leaves no trailing zero digit. -/
theorem trimZeros_getLast (ds : List Char) :
    (trimZeros ds).getLast? ≠ some '0' := by
  rw [trimZeros, List.getLast?_reverse]
  exact dropWhile_zero_head ds.reverse

/-- The padded digit list has length at least `k`. -/
theorem padDigits_length (ds : List Char) (k : Nat) :
    k ≤ (padDigits ds k).length := by
  simp [padDigits]
  omega

/-- The integer part of a positional rendering is never empty. -/
theorem posInt_ne_nil (u s : Nat) : posInt u s ≠ [] := by
  have h1 : s + 1 ≤ (posDigits u s).length := padDigits_length _ _
  rw [posInt]
  intro h
  rw [List.take_eq_nil_iff] at h
  rcases h with h | h
  · omega
  · rw [h] at h1
    simp at h1

/-- An integral floating value rendered positionally contains no
decimal point: its characters are the mantissa digits followed by
zeros. -/
theorem floatPositional_integral_no_dot (m : Nat) (e : Int) (he : 0 ≤ e) :
    '.' ∉ (floatPositional m e).data := by
  rw [floatPositional, if_pos he]
  intro hmem
  rw [strData_append] at hmem
  rcases List.mem_append.mp hmem with h | h
  · exact natDigits_ne_dot m '.' h rfl
  · exact absurd (List.eq_of_mem_replicate h) (by decide)

/-- C2: `string_value` formats numeric inputs with canonical XPath
lexical formatting: an integral floating value in the positional range
prints with no fractional part (`1.00` gives `"1"`, the integer `10`
gives `"10"`); very large or small magnitudes print in normalized
scientific notation with an uppercase exponent marker (`1e99` gives
`"1E99"`, `1e-05` gives `"1E-05"`); the special values print as
`"NaN"`, `"INF"` and `"-INF"`; a decimal value trims trailing
fractional zeros but keeps at least the integer part (`+19.0010` gives
`"19.001"`, `+1999` gives `"1999"`). -/
theorem string_value_numeric_spec :
    (∀ (neg : Bool) (m : Nat) (e : Int), 0 ≤ e → decExp m e < 16 →
      '.' ∉ (string_value (some (.atomic (.floatV (.finite neg m e))))).data) ∧
    (∀ u s : Nat, (posFrac u s).getLast? ≠ some '0' ∧ posInt u s ≠ []) ∧
    (string_value (some (.atomic (.floatV (.finite false 1 0)))) = "1" ∧
      string_value (some (.atomic (.intV 10))) = "10" ∧
      string_value (some (.atomic (.floatV (.finite false 1 99)))) = "1E99" ∧
      string_value (some (.atomic (.floatV (.finite false 1 (-5))))) =
        "1E-05" ∧
      string_value (some (.atomic (.floatV .nan))) = "NaN" ∧
      string_value (some (.atomic (.floatV .inf))) = "INF" ∧
      string_value (some (.atomic (.floatV .negInf))) = "-INF" ∧
      string_value (some (.atomic (.decimalV ⟨false, 190010, 4⟩))) =
        "19.001" ∧
      string_value (some (.atomic (.decimalV ⟨false, 1999, 0⟩))) = "1999") := by
  refine ⟨?_, fun u s => ⟨trimZeros_getLast _, posInt_ne_nil u s⟩, by decide⟩
  intro neg m e he hlt
  have h1 : 1 ≤ numDigits m := by
    rw [numDigits]
    cases h : natDigits m with
    | nil => exact absurd h (natDigits_ne_nil m)
    | cons a l => simp
  have hcond : ¬(decExp m e < -4 ∨ 16 ≤ decExp m e) := by
    rw [not_or]
    refine ⟨?_, by omega⟩
    rw [decExp]
    omega
  simp only [string_value, floatLexical, if_neg hcond]
  intro hmem
  rw [strData_append] at hmem
  rcases List.mem_append.mp hmem with h | h
  · cases neg <;> exact absurd h (by decide)
  · exact floatPositional_integral_no_dot m e he h

/-- Witness for C2: the general clause applied at the integral floating
value `1.00`, whose hypotheses hold concretely and whose rendering has
no decimal point. -/
theorem string_value_numeric_spec_witness :
    (0 : Int) ≤ 0 ∧ decExp 1 0 < 16 ∧
    '.' ∉ (string_value (some (.atomic (.floatV (.finite false 1 0))))).data :=
  ⟨by decide, by decide,
    string_value_numeric_spec.1 false 1 0 (by decide) (by decide)⟩

/-- C10: `data_value` is the identity on every input that is not an
XPath node — it returns the absent value for the absent value, and
returns every non-node item (a number, a string, the boolean `False`,
or an arbitrary object that is neither a node nor an atomic value)
unchanged, with no type inspection or validation performed on it. -/
theorem data_value_non_node_spec :
    data_value none = none ∧
    (∀ i : Item, i.isNode = false → data_value (some i) = some i) ∧
    data_value (some (.atomic (.boolV false))) =
      some (.atomic (.boolV false)) ∧
    (∀ s : String, data_value (some (.obj s)) = some (.obj s)) := by
  refine ⟨rfl, fun i hi => ?_, rfl, fun s => rfl⟩
  cases i with
  | node n => simp [Item.isNode] at hi
  | atomic a => rfl
  | obj r => rfl

/-- Witness for C10: the integer 19, the string "19" and an arbitrary
tagged object all pass through `data_value` unchanged. -/
theorem data_value_non_node_spec_witness :
    (Item.atomic (.intV 19)).isNode = false ∧
    data_value (some (.atomic (.intV 19))) = some (.atomic (.intV 19)) ∧
    data_value (some (.atomic (.strV "19"))) = some (.atomic (.strV "19")) ∧
    data_value (some (.obj "Tagged(tag=root)")) =
      some (.obj "Tagged(tag=root)") :=
  ⟨rfl, data_value_non_node_spec.2.1 (.atomic (.intV 19)) rfl,
    data_value_non_node_spec.2.1 (.atomic (.strV "19")) rfl,
    data_value_non_node_spec.2.1 (.obj "Tagged(tag=root)") rfl⟩

/-- C9: `use_locale` with an absent collation raises a type-kind error
with code `XPTY0004` whose message contains "collation cannot be an
empty sequence"; with a valid collation identifier it switches the
process-wide LC_COLLATE setting to the resolved collation for the
duration of the scope (the reserved codepoint collation resolving to
the fixed code-point locale) and restores the prior setting on exit. -/
theorem use_locale_spec :
    (∀ prior : LocaleState, ∃ e : XPathErr,
      use_locale none prior = .error e ∧ e.kind = .typeError ∧
      e.code = "XPTY0004" ∧
      strContains e.message "collation cannot be an empty sequence" = true) ∧
    (∀ prior : LocaleState,
      use_locale (some UNICODE_CODEPOINT_COLLATION) prior =
        .ok (⟨"en_US.UTF-8"⟩, prior)) ∧
    (∀ (c : String) (prior : LocaleState),
      use_locale (some c) prior = .ok (⟨resolveCollation c⟩, prior)) := by
  refine ⟨fun prior => ⟨_, rfl, rfl, rfl, by decide⟩, fun prior => ?_,
    fun c prior => rfl⟩
  rw [use_locale,
    show resolveCollation UNICODE_CODEPOINT_COLLATION = "en_US.UTF-8" from
      by decide]

/-- C6: each error-shortcut operation carries its fixed XPath error
code and kind: `wrong_value` is a value error `FOCA0002`, `wrong_type`
a type error `FORG0006`, `missing_context` a missing-context error
`XPDY0002`, `wrong_context_type` a type error `XPTY0004`,
`missing_name` a missing-name error `XPST0008`, `wrong_nargs` a type
error `XPST0017`, `wrong_sequence_type` a type error `XPDY0050`,
`unknown_atomic_type` a missing-name error `XPST0051`; `missing_axis`
is a missing-name error `XPST0010` in backward-compatibility mode and
a syntax-kind error `XPST0003` otherwise. -/
theorem error_shortcuts_spec :
    (wrong_value.code = "FOCA0002" ∧ wrong_value.kind = .valueError ∧
      wrong_type.code = "FORG0006" ∧ wrong_type.kind = .typeError ∧
      missing_context.code = "XPDY0002" ∧
      missing_context.kind = .missingContextError ∧
      wrong_context_type.code = "XPTY0004" ∧
      wrong_context_type.kind = .typeError ∧
      missing_name.code = "XPST0008" ∧ missing_name.kind = .nameError ∧
      wrong_nargs.code = "XPST0017" ∧ wrong_nargs.kind = .typeError ∧
      wrong_sequence_type.code = "XPDY0050" ∧
      wrong_sequence_type.kind = .typeError ∧
      unknown_atomic_type.code = "XPST0051" ∧
      unknown_atomic_type.kind = .nameError) ∧
    (∀ p : Parser, p.compatibility_mode = true →
      (missing_axis p).code = "XPST0010" ∧
      (missing_axis p).kind = .nameError) ∧
    (∀ p : Parser, p.compatibility_mode = false →
      (missing_axis p).code = "XPST0003" ∧
      (missing_axis p).kind = .synError) := by
  refine ⟨by decide, fun p hp => ?_, fun p hp => ?_⟩
  · rw [missing_axis, if_pos hp]
    exact ⟨rfl, rfl⟩
  · rw [missing_axis, if_neg (by simp [hp])]
    exact ⟨rfl, rfl⟩

/-- Looking up a name after recording a type under it yields the old
alternatives with the new type appended in insertion order. -/
theorem lookup_recordType (m : XsdTypes) (n : String) (t : XsdType) :
    lookupTypes (recordType m n t) n =
      some ((lookupTypes m n).getD [] ++ [t]) := by
  induction m with
  | nil => simp [recordType, lookupTypes]
  | cons kv rest ih =>
      obtain ⟨k, ts⟩ := kv
      by_cases h : k = n
      · subst h
        simp [recordType, lookupTypes]
      · simp only [recordType, if_neg h, lookupTypes, List.find?]
        rw [show (k == n) = false from beq_eq_false_iff_ne.mpr h]
        exact ih

/-- C5: `add_xsd_type` ignores inputs that are not schema declarations
or schema-typed nodes, leaving the mapping unchanged and returning no
type; for a schema input it records the declaration's type under the
declaration's local name and returns it; adding under a name that
already has recorded types accumulates the new type as a further
ordered alternative (insertion order preserved) rather than
overwriting. -/
theorem add_xsd_type_spec :
    (∀ (r : String) (st : Option XsdTypes),
      add_xsd_type (.nonSchema r) st = (st, none)) ∧
    (∀ (n : String) (t : XsdType) (st : Option XsdTypes),
      (add_xsd_type (.decl n t) st).2 = some t ∧
      (add_xsd_type (.typedNode n t) st).2 = some t ∧
      lookupTypes (((add_xsd_type (.decl n t) st).1).getD []) n =
        some ((lookupTypes (st.getD []) n).getD [] ++ [t]) ∧
      lookupTypes (((add_xsd_type (.typedNode n t) st).1).getD []) n =
        some ((lookupTypes (st.getD []) n).getD [] ++ [t])) := by
  refine ⟨fun r st => rfl, fun n t st => ⟨rfl, rfl, ?_, ?_⟩⟩ <;>
    exact lookup_recordType (st.getD []) n t

/-- C4: `get_xsd_type` on a plain name returns the first recorded
alternative regardless of node content; on an instance node with
multiple recorded candidates and leaf scalar content it probes each
candidate's decode capability against the literal content in insertion
order, returning the first that decodes and falling back to the first
candidate when none decode (candidates float, boolean, decimal:
content "false" yields boolean, content "alpha" yields float); on a
node with children it returns the candidate whose declared child
structure matches the actual child tags, or the first candidate if
none match structurally. -/
theorem get_xsd_type_spec :
    (∀ (st : Option XsdTypes) (s : String) (ts : List XsdType),
      lookupTypes (st.getD []) s = some ts →
      get_xsd_type st (.plainName s) = ts.head?) ∧
    get_xsd_type (some [("node", [xsFloat, xsBoolean, xsDecimal])])
      (.instNode (.attribute "node" "false" none)) = some xsBoolean ∧
    get_xsd_type (some [("node", [xsFloat, xsBoolean, xsDecimal])])
      (.instNode (.attribute "node" "alpha" none)) = some xsFloat ∧
    get_xsd_type (some [("node", [xsFloat, xsBoolean, xsDecimal])])
      (.instNode (.element "node" "false" [] none)) = some xsBoolean ∧
    get_xsd_type (some [("a", [xsBoolean, aType, xsFloat])])
      (.instNode (.element "a" ""
        [.element "b1" "14" [] none, .element "b2" "true" [] none] none)) =
      some aType ∧
    get_xsd_type (some [("a", [xsBoolean, aType, xsFloat])])
      (.instNode (.element "a" "" [.element "b1" "14" [] none] none)) =
      some xsBoolean := by
  refine ⟨fun st s ts h => ?_, rfl, rfl, rfl, rfl, rfl⟩
  rw [get_xsd_type, h]
  rfl

/-- Witness for C4: the plain-name clause applied to a mapping holding
a single recorded type, which is returned unchanged. -/
theorem get_xsd_type_spec_witness :
    lookupTypes ((some [("root", [xsInt])] : Option XsdTypes).getD [])
      "root" = some [xsInt] ∧
    get_xsd_type (some [("root", [xsInt])]) (.plainName "root") =
      some xsInt :=
  ⟨rfl, get_xsd_type_spec.1 (some [("root", [xsInt])]) "root" [xsInt] rfl⟩

/-- C3: `select_results` normalizes each item of the evaluated
sequence by node-typed coercion — an attribute or text-bearing node
whose bound schema type is a determinate simple type yields its typed
value; a node whose bound type is indeterminate or whose content is
complex (for example `is_simple` false) yields the node itself
unchanged, surfacing as its raw backing value with no typed coercion
(the element node unchanged, the attribute's literal string, matching
the repository's `test_select_results`); a non-node item such as the
integer 10 or the string "10" passes through unchanged. -/
theorem select_results_spec :
    (∀ (nm v : String) (t : XsdType), t.is_simple = some true →
      select_results [.node (.attribute nm v (some t))] =
        [.atomic (typedValueOf t v)]) ∧
    (∀ (c : String) (t : XsdType), t.is_simple = some true →
      select_results [.node (.textN c (some t))] =
        [.atomic (typedValueOf t c)]) ∧
    (∀ (tag tx : String) (cs : List Node) (ty : Option XsdType),
      (∀ t, ty = some t → t.is_simple ≠ some true) →
      select_results [.node (.element tag tx cs ty)] =
        [.node (.element tag tx cs ty)]) ∧
    (∀ (nm v : String) (ty : Option XsdType),
      (∀ t, ty = some t → t.is_simple ≠ some true) →
      select_results [.node (.attribute nm v ty)] = [.atomic (.strV v)]) ∧
    (∀ a : Atomic, select_results [.atomic a] = [.atomic a]) ∧
    select_results [.atomic (.intV 10)] = [.atomic (.intV 10)] ∧
    select_results [.atomic (.strV "10")] = [.atomic (.strV "10")] ∧
    select_results [.node (.attribute "max" "30" (some dummyXsdType))] =
      [.atomic (.strV "30")] ∧
    select_results [.node (.element "A" "10" [] (some dummyXsdType))] =
      [.node (.element "A" "10" [] (some dummyXsdType))] ∧
    select_results [.node (.element "A" "10" [] none)] =
      [.node (.element "A" "10" [] none)] := by
  refine ⟨fun nm v t ht => ?_, fun c t ht => ?_, fun tag tx cs ty hty => ?_,
    fun nm v ty hty => ?_, fun a => rfl, rfl, rfl, rfl, rfl, rfl⟩
  · simp [select_results, normalizeResult, Node.boundType, ht, Node.content]
  · simp [select_results, normalizeResult, Node.boundType, ht, Node.content]
  · cases ty with
    | none => rfl
    | some t =>
        simp [select_results, normalizeResult, Node.boundType,
          if_neg (hty t rfl), nodeBacking]
  · cases ty with
    | none => rfl
    | some t =>
        simp [select_results, normalizeResult, Node.boundType,
          if_neg (hty t rfl), nodeBacking]

/-- Witness for C3: an attribute with the determinate simple model int
type decodes to its typed value, and the typed-coercion clauses applied
at concrete nodes. -/
theorem select_results_spec_witness :
    xsInt.is_simple = some true ∧
    select_results [.node (.attribute "max" "30" (some xsInt))] =
      [.atomic (typedValueOf xsInt "30")] ∧
    typedValueOf xsInt "30" = .intV 30 ∧
    (∀ t : XsdType, (some dummyXsdType : Option XsdType) = some t →
      t.is_simple ≠ some true) ∧
    select_results [.node (.element "A" "10" [] (some dummyXsdType))] =
      [.node (.element "A" "10" [] (some dummyXsdType))] := by
  refine ⟨rfl, select_results_spec.1 "max" "30" xsInt rfl, rfl,
    fun t ht => ?_, ?_⟩
  · cases Option.some.inj ht
    intro hc
    simp [dummyXsdType] at hc
  · exact select_results_spec.2.2.1 "A" "10" [] (some dummyXsdType)
      (fun t ht => by
        cases Option.some.inj ht
        intro hc
        simp [dummyXsdType] at hc)

/-- A string rebuilt from its character data is itself. -/
theorem strMk_data (s : String) : String.mk s.data = s := rfl

/-- Splitting a colon-free run consumes it whole. -/
theorem splitColonAux_no_colon :
    ∀ (l acc : List Char), (∀ ch ∈ l, ch ≠ ':') →
      splitColonAux l acc = [String.mk (acc.reverse ++ l)] := by
  intro l
  induction l with
  | nil =>
      intro acc h
      simp [splitColonAux]
  | cons c rest ih =>
      intro acc h
      have hc : c ≠ ':' := h c (List.mem_cons_self _ _)
      rw [splitColonAux, if_neg hc,
        ih (c :: acc) (fun ch hch => h ch (List.mem_cons_of_mem _ hch))]
      simp

/-- Splitting at the first colon separates the colon-free head. -/
theorem splitColonAux_colon :
    ∀ (l₁ l₂ acc : List Char), (∀ ch ∈ l₁, ch ≠ ':') →
      splitColonAux (l₁ ++ ':' :: l₂) acc =
        String.mk (acc.reverse ++ l₁) :: splitColonAux l₂ [] := by
  intro l₁
  induction l₁ with
  | nil =>
      intro l₂ acc h
      rw [List.nil_append, splitColonAux, if_pos rfl]
      simp
  | cons c rest ih =>
      intro l₂ acc h
      have hc : c ≠ ':' := h c (List.mem_cons_self _ _)
      rw [List.cons_append, splitColonAux, if_neg hc,
        ih l₂ (c :: acc) (fun ch hch => h ch (List.mem_cons_of_mem _ hch))]
      simp

/-- A singly-prefixed code splits into its alias and local parts. -/
theorem splitColon_prefixed (pfx c : String)
    (h₁ : ∀ ch ∈ pfx.data, ch ≠ ':') (h₂ : ∀ ch ∈ c.data, ch ≠ ':') :
    splitColon (pfx ++ ":" ++ c) = [pfx, c] := by
  have hdata : (pfx ++ ":" ++ c).data = pfx.data ++ ':' :: c.data := by
    rw [strData_append, strData_append]
    simp
  rw [splitColon, hdata, splitColonAux_colon pfx.data c.data [] h₁,
    splitColonAux_no_colon c.data [] h₂]
  simp

/-- The generic accessor on a code whose alias does not resolve to the
XPath-errors namespace produces the required-namespace type error. -/
theorem error_bad_alias (p : Parser) (pfx c : String)
    (h₁ : ∀ ch ∈ pfx.data, ch ≠ ':') (h₂ : ∀ ch ∈ c.data, ch ≠ ':')
    (h₃ : lookupNs p pfx ≠ some xqtErrorsNamespace) :
    error p (pfx ++ ":" ++ c) =
      ⟨.typeError, "XPTY0004",
        "the " ++ xqtErrorsNamespace ++ " namespace is required"⟩ := by
  rw [error, splitColon_prefixed pfx c h₁ h₂]
  simp only [if_neg h₃]

/-- C7: the generic `error(code)` accessor validates its argument and
raises a type-kind error with code `XPTY0004` in exactly these cases:
a code prefixed with an alias not resolving to the XPath-errors
namespace (message naming that required namespace), a doubly-prefixed
code (message containing "is not a prefixed name"), and a code outside
the known set (message containing "unknown XPath error code"); every
known code, bare or correctly prefixed, instead produces its canonical
structured error. -/
theorem error_accessor_spec :
    (∀ (p : Parser) (pfx c : String),
      (∀ ch ∈ pfx.data, ch ≠ ':') → (∀ ch ∈ c.data, ch ≠ ':') →
      lookupNs p pfx ≠ some xqtErrorsNamespace →
      (error p (pfx ++ ":" ++ c)).kind = .typeError ∧
      (error p (pfx ++ ":" ++ c)).code = "XPTY0004" ∧
      strContains (error p (pfx ++ ":" ++ c)).message
        xqtErrorsNamespace = true ∧
      strContains (error p (pfx ++ ":" ++ c)).message
        "namespace is required" = true) ∧
    ((error defaultParser "err:err:XPST0003").kind = .typeError ∧
      (error defaultParser "err:err:XPST0003").code = "XPTY0004" ∧
      strContains (error defaultParser "err:err:XPST0003").message
        "is not a prefixed name" = true ∧
      (error defaultParser "XPST9999").kind = .typeError ∧
      (error defaultParser "XPST9999").code = "XPTY0004" ∧
      strContains (error defaultParser "XPST9999").message
        "unknown XPath error code" = true) ∧
    (∀ c ∈ knownErrorCodes,
      error defaultParser c = tableErr c ∧
      error defaultParser ("err:" ++ c) = tableErr c) := by
  refine ⟨fun p pfx c h₁ h₂ h₃ => ?_, by decide, by decide⟩
  rw [error_bad_alias p pfx c h₁ h₂ h₃]
  exact ⟨rfl, rfl, by decide, by decide⟩

/-- Witness for C7: the alias `xml` of the default parser does not
resolve to the XPath-errors namespace, so `error("xml:XPST0003")` is a
type error naming the required namespace. -/
theorem error_accessor_spec_witness :
    (∀ ch ∈ "xml".data, ch ≠ ':') ∧ (∀ ch ∈ "XPST0003".data, ch ≠ ':') ∧
    lookupNs defaultParser "xml" ≠ some xqtErrorsNamespace ∧
    ((error defaultParser ("xml" ++ ":" ++ "XPST0003")).kind = .typeError ∧
      (error defaultParser ("xml" ++ ":" ++ "XPST0003")).code = "XPTY0004" ∧
      strContains (error defaultParser ("xml" ++ ":" ++ "XPST0003")).message
        xqtErrorsNamespace = true ∧
      strContains (error defaultParser ("xml" ++ ":" ++ "XPST0003")).message
        "namespace is required" = true) :=
  ⟨by decide, by decide, by decide,
    error_accessor_spec.1 defaultParser "xml" "XPST0003"
      (by decide) (by decide) (by decide)⟩

/-- Appending the empty string on the left is the identity. -/
theorem strNil_append (x : String) : "" ++ x = x := by
  show String.mk ([] ++ x.data) = x
  rw [List.nil_append]

/-- Appending the empty string on the right is the identity. -/
theorem strAppend_nil (x : String) : x ++ "" = x := by
  show String.mk (x.data ++ []) = x
  rw [List.append_nil]

/-- String append is associative. -/
theorem strAppend_assoc (a b c : String) : a ++ b ++ c = a ++ (b ++ c) := by
  show String.mk (a.data ++ b.data ++ c.data) =
    String.mk (a.data ++ (b.data ++ c.data))
  rw [List.append_assoc]

/-- Rendering lexemes distributes over list append. -/
theorem detok_append (a b : List Lexeme) :
    detok (a ++ b) = detok a ++ detok b := by
  induction a with
  | nil => rw [List.nil_append, detok, strNil_append]
  | cons l ls ih => rw [List.cons_append, detok, detok, ih, strAppend_assoc]

/-- A token's source text is its covered lexemes rendered back. -/
theorem source_eq_detok (t : XToken) : source t = detok (srcLex t) := by
  induction t with
  | nameT s => rw [source, srcLex, detok, detok, lexemeStr, strAppend_nil]
  | numT s => rw [source, srcLex, detok, detok, lexemeStr, strAppend_nil]
  | funcT s =>
      rw [source, srcLex, detok, detok, detok, detok, lexemeStr, lexemeStr,
        lexemeStr, strAppend_nil]
      rfl
  | rootStep t ih => rw [source, srcLex, detok, ih, lexemeStr]
  | attrT t ih => rw [source, srcLex, detok, ih, lexemeStr]
  | pathStep l r ihl ihr =>
      rw [source, srcLex, detok_append, detok, ihl, ihr, lexemeStr,
        strAppend_assoc]
  | predT b p ihb ihp =>
      rw [source, srcLex, detok_append, detok, detok_append, detok, detok,
        ihb, ihp, lexemeStr, lexemeStr, strAppend_nil, strAppend_assoc,
        strAppend_assoc]

/-- A successful primary parse consumes exactly the lexemes the built
token covers. -/
theorem parsePrimary_consumed :
    ∀ (ls : List Lexeme) (t : XToken) (rest : List Lexeme),
      parsePrimary ls = some (t, rest) → srcLex t ++ rest = ls := by
  intro ls t rest h
  unfold parsePrimary at h
  split at h <;> (cases h <;> simp [srcLex])

/-- The consumption invariant of the mutual parser functions: every
successful parse leaves exactly the suffix after the lexemes the built
token covers (with the already-built accumulator counted in front). -/
theorem parse_consumed (fuel : Nat) :
    (∀ ls t rest, parseStep fuel ls = some (t, rest) →
      srcLex t ++ rest = ls) ∧
    (∀ acc ls t rest, parsePreds fuel acc ls = some (t, rest) →
      srcLex t ++ rest = srcLex acc ++ ls) ∧
    (∀ acc ls t rest, parseSlashes fuel acc ls = some (t, rest) →
      srcLex t ++ rest = srcLex acc ++ ls) ∧
    (∀ ls t rest, parsePath fuel ls = some (t, rest) →
      srcLex t ++ rest = ls) := by
  induction fuel with
  | zero =>
      refine ⟨fun ls t rest h => ?_, fun acc ls t rest h => ?_,
        fun acc ls t rest h => ?_, fun ls t rest h => ?_⟩ <;>
        simp [parseStep, parsePreds, parseSlashes, parsePath] at h
  | succ fuel ih =>
      obtain ⟨ihStep, ihPreds, ihSlashes, ihPath⟩ := ih
      refine ⟨fun ls t rest h => ?_, fun acc ls t rest h => ?_,
        fun acc ls t rest h => ?_, fun ls t rest h => ?_⟩
      · -- parseStep
        simp only [parseStep] at h
        cases hp : parsePrimary ls with
        | none => rw [hp] at h; simp at h
        | some pr =>
            obtain ⟨p, r⟩ := pr
            rw [hp] at h
            have h2 := ihPreds p r t rest h
            have h3 := parsePrimary_consumed ls p r hp
            rw [h2]
            exact h3
      · -- parsePreds
        simp only [parsePreds] at h
        split at h
        · rename_i rest₀
          cases hp : parsePath fuel rest₀ with
          | none => rw [hp] at h; simp at h
          | some pr =>
              obtain ⟨inner, rest2⟩ := pr
              rw [hp] at h
              cases rest2 with
              | nil => simp at h
              | cons l2 rest3 =>
                  cases l2
                  case rbrack =>
                    have h2 := ihPreds (.predT acc inner) rest3 t rest h
                    have h3 := ihPath rest₀ inner (.rbrack :: rest3) hp
                    rw [h2, srcLex, ← h3]
                    simp [List.append_assoc]
                  all_goals simp at h
        · cases h
          rfl
      · -- parseSlashes
        simp only [parseSlashes] at h
        split at h
        · rename_i rest₀
          cases hp : parseStep fuel rest₀ with
          | none => rw [hp] at h; simp at h
          | some pr =>
              obtain ⟨st, rest2⟩ := pr
              rw [hp] at h
              have h2 := ihSlashes (.pathStep acc st) rest2 t rest h
              have h3 := ihStep rest₀ st rest2 hp
              rw [h2, srcLex, ← h3]
              simp [List.append_assoc]
        · cases h
          rfl
      · -- parsePath
        simp only [parsePath] at h
        split at h
        · rename_i rest₀
          cases hp : parseStep fuel rest₀ with
          | none => rw [hp] at h; simp at h
          | some pr =>
              obtain ⟨st, rest2⟩ := pr
              rw [hp] at h
              have h2 := ihSlashes (.rootStep st) rest2 t rest h
              have h3 := ihStep rest₀ st rest2 hp
              rw [h2, srcLex, ← h3]
              simp
        · cases hp : parseStep fuel ls with
          | none => rw [hp] at h; simp at h
          | some pr =>
              obtain ⟨st, rest2⟩ := pr
              rw [hp] at h
              have h2 := ihSlashes st rest2 t rest h
              have h3 := ihStep ls st rest2 hp
              rw [h2]
              exact h3

/-- C8: for every query text that parses successfully, the source text
reconstructed from the resulting root token (purely from symbol plus
children) equals the text with insignificant whitespace normalized;
parsing "last()" yields source "last()", parsing "2.0" yields source
"2.0", and each `/` subtoken of "/A/B[C]/D/@a" reconstructs exactly
the prefix of the query it covers. -/
theorem parse_source_spec :
    (∀ (s : String) (t : XToken), parse s = some t →
      source t = normalizeWs s) ∧
    (parse "last()").map source = some "last()" ∧
    (parse "2.0").map source = some "2.0" ∧
    (parse "/A/B[C]/D/@a").map slashSources =
      some ["/A", "/A/B[C]", "/A/B[C]/D", "/A/B[C]/D/@a"] := by
  refine ⟨fun s t h => ?_, by decide, by decide, by decide⟩
  simp only [parse] at h
  cases hl : lex s with
  | none => rw [hl] at h; simp at h
  | some ls =>
      rw [hl] at h
      replace h : (match parsePath (4 * ls.length + 4) ls with
        | some (t, []) => some t
        | _ => none) = some t := h
      cases hp : parsePath (4 * ls.length + 4) ls with
      | none => rw [hp] at h; simp at h
      | some pr =>
          obtain ⟨t', rest⟩ := pr
          rw [hp] at h
          cases rest with
          | nil =>
              have h' : some t' = some t := h
              cases h'
              have h3 := (parse_consumed (4 * ls.length + 4)).2.2.2
                ls t [] hp
              rw [List.append_nil] at h3
              rw [source_eq_detok t, normalizeWs, hl]
              exact congrArg detok h3
          | cons l rest' => simp at h

/-- Witness for C8: the invariant applied at the concrete query
"last()", whose parse succeeds with the zero-argument function token
and whose reconstructed source equals the normalized text. -/
theorem parse_source_spec_witness :
    parse "last()" = some (.funcT "last") ∧
    source (.funcT "last") = normalizeWs "last()" :=
  ⟨by decide, parse_source_spec.1 "last()" (.funcT "last") (by decide)⟩

/-- Witness for C6: the dialect-sensitive `missing_axis` evaluated at a
backward-compatible parser and at a non-compatible parser. -/
theorem error_shortcuts_spec_witness :
    (Parser.mk [] true).compatibility_mode = true ∧
    (missing_axis ⟨[], true⟩).code = "XPST0010" ∧
    (missing_axis ⟨[], true⟩).kind = .nameError ∧
    (Parser.mk [] false).compatibility_mode = false ∧
    (missing_axis ⟨[], false⟩).code = "XPST0003" ∧
    (missing_axis ⟨[], false⟩).kind = .synError :=
  ⟨rfl, (error_shortcuts_spec.2.1 ⟨[], true⟩ rfl).1,
    (error_shortcuts_spec.2.1 ⟨[], true⟩ rfl).2, rfl,
    (error_shortcuts_spec.2.2 ⟨[], false⟩ rfl).1,
    (error_shortcuts_spec.2.2 ⟨[], false⟩ rfl).2⟩

end ElementPath
